import Mathlib

/-!
Verification development for the Ditto-to-ROS bridge node
(`ditto_ros_bridge/bridge_node.py`).

The development shallowly embeds the bridge:
- `Json` models the Python values produced by `json.loads` (dicts as
  association lists in insertion order, distinguishing `int` and `float`);
- `pyFloat`, `pyInt`, `pyBool`, `pyStr`, `pyGet`, `pyIndex`, `pyContains`
  model the Python primitives the source calls (`float(...)`, `int(...)`,
  `bool(...)`, f-string conversion, `dict.get`, subscription, `in`);
- `sanitize_topic_name`, `get_or_create_publisher`, `sse_parse`,
  `process_thing` are translated from the identically named methods of
  `DittoROS2Bridge`;
- `supervise` models the retry loop of `subscribe_to_changes`.

Fallible Python steps are modelled with `Except PyErr`; ROS message field
assignments to string-typed fields are modelled by `expectStr` (the rclpy
message setters reject non-`str` values). Numbers are exact rationals:
`float` arithmetic in the source is only construction and field storage, so
no rounding behaviour is observable in the modelled fragment.
-/

/-- A Python value as produced by `json.loads`, plus the bridge defaults.
Objects keep insertion order, as Python dicts do. -/
inductive Json where
  | null
  | bool (b : Bool)
  | int (n : Int)
  | float (q : Rat)
  | str (s : String)
  | arr (elems : List Json)
  | obj (fields : List (String × Json))

/-- Python exception classes raised by the operations the bridge uses. -/
inductive PyErr where
  | typeError (msg : String)
  | valueError (msg : String)
  | attributeError (msg : String)
  | keyError (msg : String)
deriving DecidableEq, Repr

/-- Digit list to natural number, most significant first. -/
def digitsToNat (ds : List Char) : Nat :=
  ds.foldl (fun a c => a * 10 + (c.toNat - 48)) 0

/-- Python `str.strip()` on a character list: drop leading and trailing
whitespace. -/
def stripL (s : List Char) : List Char :=
  ((s.dropWhile Char.isWhitespace).reverse.dropWhile Char.isWhitespace).reverse

/-- Python `str.strip()` on strings. -/
def pyStrip (s : String) : String :=
  String.mk (stripL s.data)

/-- Model of Python `float(s)` on a string: an optionally signed finite
decimal literal with optional exponent, surrounded by optional whitespace.
(`inf`, `nan` and underscore separators are outside the modelled fragment.) -/
def parseFloatLit (s : String) : Option Rat :=
  let cs0 := stripL s.data
  let sgncs :=
    match cs0 with
    | c :: rest =>
      if c = '-' then (true, rest) else if c = '+' then (false, rest) else (false, cs0)
    | [] => (false, ([] : List Char))
  let sgn := sgncs.1
  let cs1 := sgncs.2
  let ip := cs1.takeWhile Char.isDigit
  let cs2 := cs1.dropWhile Char.isDigit
  let fpcs :=
    match cs2 with
    | c :: rest =>
      if c = '.' then (rest.takeWhile Char.isDigit, rest.dropWhile Char.isDigit)
      else (([] : List Char), cs2)
    | [] => (([] : List Char), cs2)
  let fp := fpcs.1
  let cs3 := fpcs.2
  if ip.isEmpty && fp.isEmpty then none
  else
    let m : Nat := digitsToNat (ip ++ fp)
    let sn : Int := if sgn then -(m : Int) else (m : Int)
    match cs3 with
    | [] => some (mkRat sn (10 ^ fp.length))
    | c :: rest =>
      if c = 'e' ∨ c = 'E' then
        let esgnrest :=
          match rest with
          | d :: r2 =>
            if d = '-' then (true, r2) else if d = '+' then (false, r2) else (false, rest)
          | [] => (false, rest)
        let ed := esgnrest.2.takeWhile Char.isDigit
        let restFinal := esgnrest.2.dropWhile Char.isDigit
        if ed.isEmpty ∨ restFinal ≠ [] then none
        else
          let e : Nat := digitsToNat ed
          some (if esgnrest.1 then mkRat sn (10 ^ (fp.length + e))
                else mkRat (sn * ((10 : Nat) ^ e : Nat)) (10 ^ fp.length))
      else none

/-- Model of Python `int(s)` on a string: an optionally signed decimal
integer literal surrounded by optional whitespace. -/
def parseIntLit (s : String) : Option Int :=
  let cs0 := stripL s.data
  let sgncs :=
    match cs0 with
    | c :: rest =>
      if c = '-' then (true, rest) else if c = '+' then (false, rest) else (false, cs0)
    | [] => (false, ([] : List Char))
  if sgncs.2 ≠ [] ∧ sgncs.2.all Char.isDigit then
    some (if sgncs.1 then -(digitsToNat sgncs.2 : Int) else (digitsToNat sgncs.2 : Int))
  else none

/-- Truncation toward zero, as Python `int(float)` does (the denominator
is positive, and `Int.tdiv` truncates toward zero). -/
def ratTrunc (q : Rat) : Int :=
  q.num.tdiv (q.den : Int)

/-- Model of Python `float(x)` on the values of the `Json` model. -/
def pyFloat : Json → Except PyErr Rat
  | .int n => .ok (mkRat n 1)
  | .float q => .ok q
  | .bool b => .ok (if b then mkRat 1 1 else mkRat 0 1)
  | .str s =>
    match parseFloatLit s with
    | some q => .ok q
    | none => .error (.valueError ("could not convert string to float: " ++ s))
  | .null => .error (.typeError "float argument must not be None")
  | .arr _ => .error (.typeError "float argument must not be a list")
  | .obj _ => .error (.typeError "float argument must not be a dict")

/-- Model of Python `int(x)` on the values of the `Json` model. -/
def pyInt : Json → Except PyErr Int
  | .int n => .ok n
  | .float q => .ok (ratTrunc q)
  | .bool b => .ok (if b then 1 else 0)
  | .str s =>
    match parseIntLit s with
    | some n => .ok n
    | none => .error (.valueError ("invalid literal for int: " ++ s))
  | .null => .error (.typeError "int argument must not be None")
  | .arr _ => .error (.typeError "int argument must not be a list")
  | .obj _ => .error (.typeError "int argument must not be a dict")

/-- Model of Python truthiness, `bool(x)`; total. -/
def pyBool : Json → Bool
  | .null => false
  | .bool b => b
  | .int n => n != 0
  | .float q => q.num != 0
  | .str s => !s.data.isEmpty
  | .arr xs => !xs.isEmpty
  | .obj fs => !fs.isEmpty

/-- Auxiliary for `floatRepr`: least `k` (starting at `k0`, up to `fuel`
more) with `den` dividing `10 ^ k`. -/
def scaleExpAux (den : Nat) : Nat → Nat → Option Nat
  | k, 0 => if (10 ^ k) % den = 0 then some k else none
  | k, fuel + 1 => if (10 ^ k) % den = 0 then some k else scaleExpAux den (k + 1) fuel

/-- Decimal rendering of an exact rational, idealizing Python `str(float)`
(our floats are exact, so exact decimal expansion is the faithful reading;
a non-decimal denominator is rendered as a fraction, unreachable for values
that model IEEE floats). -/
def floatRepr (q : Rat) : String :=
  if q.den = 1 then toString q.num ++ ".0"
  else
    match scaleExpAux q.den 0 64 with
    | some k =>
      let a : Nat := q.num.natAbs * ((10 ^ k) / q.den)
      let ipart := a / 10 ^ k
      let frac := a % 10 ^ k
      let fs := toString frac
      let pad := String.mk (List.replicate (k - fs.length) '0')
      (if q.num < 0 then "-" else "") ++ toString ipart ++ "." ++ pad ++ fs
    | none => toString q.num ++ "/" ++ toString q.den

mutual
/-- Model of Python `repr(x)` for the modelled values. -/
def pyRepr : Json → String
  | .null => "None"
  | .bool b => if b then "True" else "False"
  | .int n => toString n
  | .float q => floatRepr q
  | .str s => "\x27" ++ s ++ "\x27"
  | .arr xs => "[" ++ pyReprList xs ++ "]"
  | .obj fs => "\x7b" ++ pyReprObj fs ++ "\x7d"

/-- Comma-separated `repr` of list elements. -/
def pyReprList : List Json → String
  | [] => ""
  | [x] => pyRepr x
  | x :: y :: rest => pyRepr x ++ ", " ++ pyReprList (y :: rest)

/-- Comma-separated `repr` of dict entries. -/
def pyReprObj : List (String × Json) → String
  | [] => ""
  | [(k, v)] => "\x27" ++ k ++ "\x27: " ++ pyRepr v
  | (k, v) :: p :: rest => "\x27" ++ k ++ "\x27: " ++ pyRepr v ++ ", " ++ pyReprObj (p :: rest)
end

/-- Model of Python `str(x)` (the conversion f-strings apply). -/
def pyStr : Json → String
  | .str s => s
  | v => pyRepr v

/-- Model of Python `d.get(key, default)`: requires a dict receiver
(`AttributeError` otherwise, as in CPython). -/
def pyGet (v : Json) (key : String) (dflt : Json) : Except PyErr Json :=
  match v with
  | .obj fs => .ok ((fs.lookup key).getD dflt)
  | _ => .error (.attributeError ("object has no attribute get: " ++ key))

/-- Model of Python subscription `v[key]` with a string key. -/
def pyIndex (v : Json) (key : String) : Except PyErr Json :=
  match v with
  | .obj fs =>
    match fs.lookup key with
    | some x => .ok x
    | none => .error (.keyError key)
  | .str _ => .error (.typeError "string indices must be integers")
  | .arr _ => .error (.typeError "list indices must be integers")
  | _ => .error (.typeError "object is not subscriptable")

/-- Whether `needle` starts `hay`. -/
def startsWithL : List Char → List Char → Bool
  | _, [] => true
  | [], _ :: _ => false
  | h :: hs, n :: ns => h = n && startsWithL hs ns

/-- Whether `needle` occurs inside `hay` (substring test). -/
def containsSub (needle : List Char) : List Char → Bool
  | [] => needle.isEmpty
  | c :: rest => startsWithL (c :: rest) needle || containsSub needle rest

/-- Model of Python `key in v` with a string key: key test on dicts,
membership on lists (a list element equals a `str` only if it is that
`str`), substring test on strings, `TypeError` otherwise. -/
def pyContains (v : Json) (key : String) : Except PyErr Bool :=
  match v with
  | .obj fs => .ok (fs.any (fun p => p.1 == key))
  | .arr xs =>
    .ok (xs.any (fun j => match j with | .str s => s == key | _ => false))
  | .str s => .ok (containsSub key.data s.data)
  | _ => .error (.typeError "argument is not iterable")

/-- Model of a rclpy message setter for a `string`-typed field: the
generated setters assert the value is a `str`. -/
def expectStr : Json → Except PyErr String
  | .str s => .ok s
  | _ => .error (.typeError "ROS message string field requires a str value")

/-- Model of Python `d.items()`: requires a dict receiver. -/
def expectObj : Json → Except PyErr (List (String × Json))
  | .obj fs => .ok fs
  | _ => .error (.attributeError "object has no attribute items")

/-! ## Topic Sanitizer (`sanitize_topic_name`, bridge_node.py lines 42-53) -/

/-- Model of `str.replace(old, new)` for single characters. -/
def replaceChar (old new : Char) (s : List Char) : List Char :=
  s.map (fun c => if c = old then new else c)

/-- The character class of the regex `[^0-9a-zA-Z_/~{}]` used at line 53:
`allowedChar c` is true exactly when `c` is NOT replaced. -/
def allowedChar (c : Char) : Bool :=
  ('0' ≤ c && c ≤ '9') || ('a' ≤ c && c ≤ 'z') || ('A' ≤ c && c ≤ 'Z') ||
    c = '_' || c = '/' || c = '~' || c = Char.ofNat 123 || c = Char.ofNat 125

/-- `sanitize_topic_name` on character lists: replace `:` and `.` by `_`,
prepend `/` when missing, then replace every character outside the allowed
class by `_`. -/
def sanitizeL (s : List Char) : List Char :=
  let s1 := replaceChar ':' '_' s
  let s2 := replaceChar '.' '_' s1
  let s3 := if s2.head? = some '/' then s2 else '/' :: s2
  s3.map (fun c => if allowedChar c then c else '_')

/-- Model of `DittoROS2Bridge.sanitize_topic_name`. -/
def sanitize_topic_name (s : String) : String :=
  String.mk (sanitizeL s.data)

/-! ## Stream Decoder (`sse_parse`, bridge_node.py lines 105-120) -/

/-- Split a character list at the first occurrence of `c`
(Python `line.split(c, 1)` when `c` occurs; `none` when it does not). -/
def splitAtFirst (c : Char) : List Char → Option (List Char × List Char)
  | [] => none
  | x :: xs =>
    if x = c then some ([], xs)
    else
      match splitAtFirst c xs with
      | some (a, b) => some (x :: a, b)
      | none => none

/-- Split a character list on a separator character, Python
`s.split(sep)` for a one-character separator: `n` separators give `n + 1`
(possibly empty) fields. -/
def splitOnCharL (c : Char) : List Char → List (List Char)
  | [] => [[]]
  | x :: xs =>
    let r := splitOnCharL c xs
    if x = c then [] :: r
    else
      match r with
      | [] => [[x]]
      | h :: t => (x :: h) :: t

/-- `splitOnCharL` on strings (Python `buffer.split("\n")`). -/
def splitOnChar (c : Char) (s : String) : List String :=
  (splitOnCharL c s.data).map String.mk

/-- Python dict assignment `d[k] = v` on an insertion-ordered association
list: overwrite in place when the key exists, append otherwise. -/
def dictAssign (d : List (String × String)) (k v : String) : List (String × String) :=
  if d.any (fun p => p.1 == k) then
    d.map (fun p => if p.1 == k then (k, v) else p)
  else d ++ [(k, v)]

/-- The dict-building loop of `sse_parse` (lines 113-117): for each buffered
line containing `:`, split at the first `:` and record the trimmed key and
value; lines without `:` contribute nothing. -/
def buildEvent (lines : List String) : List (String × String) :=
  lines.foldl
    (fun ev line =>
      match splitAtFirst ':' line.data with
      | some (k, v) => dictAssign ev (pyStrip (String.mk k)) (pyStrip (String.mk v))
      | none => ev)
    []

/-- The loop of `sse_parse` with explicit buffer state: each raw line is
stripped; non-blank lines are appended to the buffer followed by a newline;
a blank line with a non-empty buffer builds the event dict from the buffer
and yields it when non-empty, then resets the buffer. (Python `str.strip()`
is modelled by `pyStrip`.) -/
def sse_parse_go (buffer : String) : List String → List (List (String × String))
  | [] => []
  | l :: rest =>
    let line := pyStrip l
    if line ≠ "" then sse_parse_go (buffer ++ line ++ "\n") rest
    else
      if buffer ≠ "" then
        let ev := buildEvent (splitOnChar '\n' buffer)
        (if ev.isEmpty then [] else [ev]) ++ sse_parse_go "" rest
      else sse_parse_go "" rest

/-- Model of `DittoROS2Bridge.sse_parse`, applied to the stream's decoded
lines; the generator's yields are collected in order. -/
def sse_parse (lines : List String) : List (List (String × String)) :=
  sse_parse_go "" lines

/-! ## Publisher Registry (`get_or_create_publisher`, lines 55-64) -/

/-- The ROS message classes the bridge publishes. -/
inductive MsgType where
  | assetMetadata
  | temperature
  | trafficLight
  | humidity
  | pressure
  | imu
  | alert
  | relationship
  | machineStatus
  | environmentalData
  | trafficData
  | cropData
  | waterManagement
  | energyConsumption
  | productionLine
deriving DecidableEq, Repr

/-- A constructed ROS message, one constructor per message class, fields in
source assignment order. -/
inductive RosMsg where
  | assetMetadata (assetId ty : String) (x y z : Rat)
  | temperature (value : Rat)
  | trafficLight (currentState : String) (timeToChange : Rat)
  | humidity (value : Rat)
  | pressure (value : Rat)
  | imu (ax ay az gx gy gz : Rat)
  | alert (message : String) (severity : Int)
  | relationship (childThingId parentThingId relationshipType : String)
  | machineStatus (machineId status : String) (uptime efficiency : Rat)
  | environmentalData (aqi noise light co2 : Rat)
  | trafficData (vehicleCount : Int) (averageSpeed : Rat) (congestionLevel : Int)
  | cropData (cropType : String) (soilMoisture soilPh growthStage : Rat)
  | waterManagement (waterLevel flowRate turbidity : Rat) (valveStatus : Bool)
  | energyConsumption (totalConsumption renewablePercentage gridLoad : Rat)
  | productionLine (lineId : String) (unitsProduced defectCount : Int) (oee : Rat)
deriving DecidableEq, Repr

/-- A `create_publisher` result: the handle stored in
`self._topic_publishers`. `id` is the creation sequence number, making
handle identity observable. -/
structure ChannelHandle where
  id : Nat
  msgType : MsgType
  topic : String
deriving DecidableEq, Repr

/-- The log events the claims are about. Routine per-publish info logs are
not modelled: they branch on nothing and carry no state. -/
inductive LogEvent where
  | createdPublisher (topic : String)
  | errorProcessing (e : PyErr)
  | debugProcessing (thing : Json)
  | debugPayload (thing : Json)

/-- The node state the embedded methods touch: the topic-to-publisher map
`self._topic_publishers` (insertion ordered), the creation counter, the log,
and the sequence of performed publishes. -/
structure BridgeState where
  publishers : List (String × ChannelHandle)
  nextId : Nat
  log : List LogEvent
  published : List (ChannelHandle × RosMsg)

/-- State at node construction: empty registry, nothing logged or published. -/
def initState : BridgeState :=
  { publishers := [], nextId := 0, log := [], published := [] }

/-- Append a log event. -/
def addLog (ev : LogEvent) (st : BridgeState) : BridgeState :=
  { st with log := st.log ++ [ev] }

/-- Model of `DittoROS2Bridge.get_or_create_publisher`: sanitize the topic,
return the stored handle when present, otherwise create a handle, store it
and log the creation. -/
def get_or_create_publisher (msgType : MsgType) (topic : String) (st : BridgeState) :
    ChannelHandle × BridgeState :=
  let t := sanitize_topic_name topic
  match st.publishers.lookup t with
  | some h => (h, st)
  | none =>
    let h : ChannelHandle := { id := st.nextId, msgType := msgType, topic := t }
    (h, { st with
            publishers := st.publishers ++ [(t, h)],
            nextId := st.nextId + 1,
            log := st.log ++ [.createdPublisher t] })

/-- Model of `pub.publish(msg)`: record the publish. -/
def publishMsg (h : ChannelHandle) (m : RosMsg) (st : BridgeState) : BridgeState :=
  { st with published := st.published ++ [(h, m)] }

/-! ## Feature Router (`process_thing`, lines 125-341) -/

/-- Result of one Python statement sequence: the state reached, and the
exception in flight if one was raised. -/
abbrev PyResult := BridgeState × Option PyErr

/-- Sequencing: run `f` unless an exception is already in flight. -/
def pySeq (r : PyResult) (f : BridgeState → PyResult) : PyResult :=
  match r with
  | (st, none) => f st
  | (st, some e) => (st, some e)

/-- Evaluate a fallible pure Python expression, then continue; a raised
exception aborts with the state unchanged from this point on. -/
def tryE {α : Type} (x : Except PyErr α) (k : α → BridgeState → PyResult)
    (st : BridgeState) : PyResult :=
  match x with
  | .ok a => k a st
  | .error e => (st, some e)

/-- The guard-and-properties prelude shared by every feature branch of
`process_thing`: `if key in features:` then
`features[key].get('properties', {})`. -/
def withFeature (features : Json) (key : String)
    (handler : Json → BridgeState → PyResult) (st : BridgeState) : PyResult :=
  tryE (pyContains features key)
    (fun present st =>
      if present then
        tryE (pyIndex features key)
          (fun feat =>
            tryE (pyGet feat "properties" (Json.obj []))
              (fun props => handler props))
          st
      else (st, none))
    st

/-- Lines 135-152: the `location` attribute branch. -/
def routeMetadata (thingId : Json) (attributes : Json) (st : BridgeState) : PyResult :=
  tryE (pyContains attributes "location")
    (fun present st =>
      if present then
        tryE (pyIndex attributes "location") (fun location =>
        tryE (pyGet location "longitude" (Json.float 0)) (fun lonV =>
        tryE (pyFloat lonV) (fun x =>
        tryE (pyGet location "latitude" (Json.float 0)) (fun latV =>
        tryE (pyFloat latV) (fun y =>
        tryE (pyGet location "elevation" (Json.float 0)) (fun elevV =>
        tryE (pyFloat elevV) (fun z =>
        tryE (expectStr thingId) (fun assetId =>
        tryE (pyGet attributes "asset_type" (Json.str "")) (fun tyV =>
        tryE (expectStr tyV) (fun ty st =>
          let msg := RosMsg.assetMetadata assetId ty x y z
          let pr := get_or_create_publisher .assetMetadata (pyStr thingId ++ "/metadata") st
          (publishMsg pr.1 msg pr.2, none))))))))))) st
      else (st, none))
    st

/-- Lines 155-164: the `temperature` feature branch body. -/
def routeTemperature (thingId : Json) (props : Json) (st : BridgeState) : PyResult :=
  tryE (pyGet props "value" (Json.float 0)) (fun v =>
  tryE (pyFloat v) (fun value st =>
    let msg := RosMsg.temperature value
    let pr := get_or_create_publisher .temperature (pyStr thingId ++ "/sensor/temperature") st
    (publishMsg pr.1 msg pr.2, none))) st

/-- Lines 166-176: the `traffic_light_status` feature branch body. -/
def routeTrafficLight (thingId : Json) (props : Json) (st : BridgeState) : PyResult :=
  tryE (pyGet props "current_state" (Json.str "unknown")) (fun sV =>
  tryE (expectStr sV) (fun state =>
  tryE (pyGet props "time_to_change" (Json.float 0)) (fun tV =>
  tryE (pyFloat tV) (fun ttc st =>
    let msg := RosMsg.trafficLight state ttc
    let pr := get_or_create_publisher .trafficLight (pyStr thingId ++ "/traffic_light_status") st
    (publishMsg pr.1 msg pr.2, none))))) st

/-- Lines 178-187: the `humidity` feature branch body. -/
def routeHumidity (thingId : Json) (props : Json) (st : BridgeState) : PyResult :=
  tryE (pyGet props "value" (Json.float 0)) (fun v =>
  tryE (pyFloat v) (fun value st =>
    let msg := RosMsg.humidity value
    let pr := get_or_create_publisher .humidity (pyStr thingId ++ "/sensor/humidity") st
    (publishMsg pr.1 msg pr.2, none))) st

/-- Lines 189-198: the `pressure` feature branch body. -/
def routePressure (thingId : Json) (props : Json) (st : BridgeState) : PyResult :=
  tryE (pyGet props "value" (Json.float 0)) (fun v =>
  tryE (pyFloat v) (fun value st =>
    let msg := RosMsg.pressure value
    let pr := get_or_create_publisher .pressure (pyStr thingId ++ "/sensor/pressure") st
    (publishMsg pr.1 msg pr.2, none))) st

/-- Lines 200-214: the `imu` feature branch body. -/
def routeImu (thingId : Json) (props : Json) (st : BridgeState) : PyResult :=
  tryE (pyGet props "accel_x" (Json.float 0)) (fun v1 =>
  tryE (pyFloat v1) (fun ax =>
  tryE (pyGet props "accel_y" (Json.float 0)) (fun v2 =>
  tryE (pyFloat v2) (fun ay =>
  tryE (pyGet props "accel_z" (Json.float 0)) (fun v3 =>
  tryE (pyFloat v3) (fun az =>
  tryE (pyGet props "gyro_x" (Json.float 0)) (fun v4 =>
  tryE (pyFloat v4) (fun gx =>
  tryE (pyGet props "gyro_y" (Json.float 0)) (fun v5 =>
  tryE (pyFloat v5) (fun gy =>
  tryE (pyGet props "gyro_z" (Json.float 0)) (fun v6 =>
  tryE (pyFloat v6) (fun gz st =>
    let msg := RosMsg.imu ax ay az gx gy gz
    let pr := get_or_create_publisher .imu (pyStr thingId ++ "/sensor/imu") st
    (publishMsg pr.1 msg pr.2, none))))))))))))) st

/-- Lines 219-227: the per-entry loop over `alerts` properties. -/
def alertsLoop (thingId : Json) : List (String × Json) → BridgeState → PyResult
  | [], st => (st, none)
  | (_, message) :: rest, st =>
    tryE (pyGet message "type" (Json.str "unknown")) (fun tyV =>
    tryE (pyGet message "severity" (Json.int 0)) (fun sevV =>
    tryE (pyInt sevV) (fun sev st =>
      let msg := RosMsg.alert (pyStr thingId ++ ":" ++ pyStr tyV) sev
      let pr := get_or_create_publisher .alert (pyStr thingId ++ "/alerts") st
      alertsLoop thingId rest (publishMsg pr.1 msg pr.2)))) st

/-- Lines 217-227: the `alerts` feature branch body (`inbox.items()`
requires a dict). -/
def routeAlerts (thingId : Json) (props : Json) (st : BridgeState) : PyResult :=
  tryE (expectObj props) (alertsLoop thingId) st

/-- Lines 232-241: the per-entry loop over `relationships` properties. -/
def relationshipsLoop (thingId : Json) : List (String × Json) → BridgeState → PyResult
  | [], st => (st, none)
  | (relType, relData) :: rest, st =>
    tryE (expectStr thingId) (fun child =>
    tryE (pyGet relData "target" (Json.str "")) (fun tgtV =>
    tryE (expectStr tgtV) (fun parent st =>
      let msg := RosMsg.relationship child parent relType
      let pr := get_or_create_publisher .relationship (pyStr thingId ++ "/relationships") st
      relationshipsLoop thingId rest (publishMsg pr.1 msg pr.2)))) st

/-- Lines 230-241: the `relationships` feature branch body. -/
def routeRelationships (thingId : Json) (props : Json) (st : BridgeState) : PyResult :=
  tryE (expectObj props) (relationshipsLoop thingId) st

/-- Lines 244-255: the `status` feature branch body. -/
def routeStatus (thingId : Json) (props : Json) (st : BridgeState) : PyResult :=
  tryE (expectStr thingId) (fun machineId =>
  tryE (pyGet props "value" (Json.str "")) (fun sV =>
  tryE (expectStr sV) (fun status =>
  tryE (pyGet props "uptime" (Json.float 0)) (fun uV =>
  tryE (pyFloat uV) (fun uptime =>
  tryE (pyGet props "efficiency" (Json.float 0)) (fun eV =>
  tryE (pyFloat eV) (fun efficiency st =>
    let msg := RosMsg.machineStatus machineId status uptime efficiency
    let pr := get_or_create_publisher .machineStatus (pyStr thingId ++ "/status") st
    (publishMsg pr.1 msg pr.2, none)))))))) st

/-- Lines 257-268: the `environment` feature branch body. -/
def routeEnvironment (thingId : Json) (props : Json) (st : BridgeState) : PyResult :=
  tryE (pyGet props "aqi" (Json.float 0)) (fun v1 =>
  tryE (pyFloat v1) (fun aqi =>
  tryE (pyGet props "noise" (Json.float 0)) (fun v2 =>
  tryE (pyFloat v2) (fun noise =>
  tryE (pyGet props "light" (Json.float 0)) (fun v3 =>
  tryE (pyFloat v3) (fun light =>
  tryE (pyGet props "co2" (Json.float 0)) (fun v4 =>
  tryE (pyFloat v4) (fun co2 st =>
    let msg := RosMsg.environmentalData aqi noise light co2
    let pr := get_or_create_publisher .environmentalData (pyStr thingId ++ "/sensor/environment") st
    (publishMsg pr.1 msg pr.2, none))))))))) st

/-- Lines 271-281: the `traffic` feature branch body. -/
def routeTraffic (thingId : Json) (props : Json) (st : BridgeState) : PyResult :=
  tryE (pyGet props "count" (Json.int 0)) (fun v1 =>
  tryE (pyInt v1) (fun count =>
  tryE (pyGet props "avg_speed" (Json.float 0)) (fun v2 =>
  tryE (pyFloat v2) (fun speed =>
  tryE (pyGet props "congestion" (Json.int 0)) (fun v3 =>
  tryE (pyInt v3) (fun congestion st =>
    let msg := RosMsg.trafficData count speed congestion
    let pr := get_or_create_publisher .trafficData (pyStr thingId ++ "/traffic") st
    (publishMsg pr.1 msg pr.2, none))))))) st

/-- Lines 284-295: the `crop` feature branch body. -/
def routeCrop (thingId : Json) (props : Json) (st : BridgeState) : PyResult :=
  tryE (pyGet props "type" (Json.str "")) (fun tV =>
  tryE (expectStr tV) (fun cropType =>
  tryE (pyGet props "moisture" (Json.float 0)) (fun v1 =>
  tryE (pyFloat v1) (fun moisture =>
  tryE (pyGet props "ph" (Json.float 0)) (fun v2 =>
  tryE (pyFloat v2) (fun ph =>
  tryE (pyGet props "growth" (Json.float 0)) (fun v3 =>
  tryE (pyFloat v3) (fun growth st =>
    let msg := RosMsg.cropData cropType moisture ph growth
    let pr := get_or_create_publisher .cropData (pyStr thingId ++ "/sensor/crop") st
    (publishMsg pr.1 msg pr.2, none))))))))) st

/-- Lines 298-309: the `water` feature branch body; `valve_status` is set
with `bool(...)` (truthiness), the numeric fields with `float(...)`. -/
def routeWater (thingId : Json) (props : Json) (st : BridgeState) : PyResult :=
  tryE (pyGet props "level" (Json.float 0)) (fun v1 =>
  tryE (pyFloat v1) (fun level =>
  tryE (pyGet props "flow" (Json.float 0)) (fun v2 =>
  tryE (pyFloat v2) (fun flow =>
  tryE (pyGet props "turbidity" (Json.float 0)) (fun v3 =>
  tryE (pyFloat v3) (fun turbidity =>
  tryE (pyGet props "valve_open" (Json.bool false)) (fun vV st =>
    let msg := RosMsg.waterManagement level flow turbidity (pyBool vV)
    let pr := get_or_create_publisher .waterManagement (pyStr thingId ++ "/sensor/water") st
    (publishMsg pr.1 msg pr.2, none)))))))) st

/-- Lines 312-322: the `energy` feature branch body. -/
def routeEnergy (thingId : Json) (props : Json) (st : BridgeState) : PyResult :=
  tryE (pyGet props "total" (Json.float 0)) (fun v1 =>
  tryE (pyFloat v1) (fun total =>
  tryE (pyGet props "renewable" (Json.float 0)) (fun v2 =>
  tryE (pyFloat v2) (fun renewable =>
  tryE (pyGet props "grid_load" (Json.float 0)) (fun v3 =>
  tryE (pyFloat v3) (fun gridLoad st =>
    let msg := RosMsg.energyConsumption total renewable gridLoad
    let pr := get_or_create_publisher .energyConsumption (pyStr thingId ++ "/energy") st
    (publishMsg pr.1 msg pr.2, none))))))) st

/-- Lines 325-336: the `production` feature branch body. -/
def routeProduction (thingId : Json) (props : Json) (st : BridgeState) : PyResult :=
  tryE (expectStr thingId) (fun lineId =>
  tryE (pyGet props "units" (Json.int 0)) (fun v1 =>
  tryE (pyInt v1) (fun units =>
  tryE (pyGet props "defects" (Json.int 0)) (fun v2 =>
  tryE (pyInt v2) (fun defects =>
  tryE (pyGet props "oee" (Json.float 0)) (fun v3 =>
  tryE (pyFloat v3) (fun oee st =>
    let msg := RosMsg.productionLine lineId units defects oee
    let pr := get_or_create_publisher .productionLine (pyStr thingId ++ "/production") st
    (publishMsg pr.1 msg pr.2, none)))))))) st

/-- The `try` block of `process_thing` (lines 126-336): optional debug log,
parse the three top-level fields, then every branch in source order.
Raised exceptions abort the remaining work and are returned in flight. -/
def process_thing_body (debug : Bool) (thing : Json) (st : BridgeState) : PyResult :=
  let st0 := if debug then addLog (.debugProcessing thing) st else st
  tryE (pyGet thing "thingId" (Json.str "")) (fun thingId =>
  tryE (pyGet thing "attributes" (Json.obj [])) (fun attributes =>
  tryE (pyGet thing "features" (Json.obj [])) (fun features st =>
  pySeq (routeMetadata thingId attributes st) (fun st =>
  pySeq (withFeature features "temperature" (routeTemperature thingId) st) (fun st =>
  pySeq (withFeature features "traffic_light_status" (routeTrafficLight thingId) st) (fun st =>
  pySeq (withFeature features "humidity" (routeHumidity thingId) st) (fun st =>
  pySeq (withFeature features "pressure" (routePressure thingId) st) (fun st =>
  pySeq (withFeature features "imu" (routeImu thingId) st) (fun st =>
  pySeq (withFeature features "alerts" (routeAlerts thingId) st) (fun st =>
  pySeq (withFeature features "relationships" (routeRelationships thingId) st) (fun st =>
  pySeq (withFeature features "status" (routeStatus thingId) st) (fun st =>
  pySeq (withFeature features "environment" (routeEnvironment thingId) st) (fun st =>
  pySeq (withFeature features "traffic" (routeTraffic thingId) st) (fun st =>
  pySeq (withFeature features "crop" (routeCrop thingId) st) (fun st =>
  pySeq (withFeature features "water" (routeWater thingId) st) (fun st =>
  pySeq (withFeature features "energy" (routeEnergy thingId) st) (fun st =>
  pySeq (withFeature features "production" (routeProduction thingId) st) (fun st =>
  (st, none))))))))))))))))))) st0

/-- Model of `DittoROS2Bridge.process_thing` (lines 125-341): the body
wrapped in `try/except Exception`; a caught exception is logged as an
error, with the offending payload logged too when `debug` is set. -/
def process_thing (debug : Bool) (thing : Json) (st : BridgeState) : BridgeState :=
  match process_thing_body debug thing st with
  | (st1, none) => st1
  | (st1, some e) =>
    let st2 := addLog (.errorProcessing e) st1
    if debug then addLog (.debugPayload thing) st2 else st2

/-! ## Stream Supervisor (`subscribe_to_changes`, lines 71-103) -/

/-- Observable actions of the supervisor worker, in order. -/
inductive SupAction where
  | connectLog
  | connectedLog
  | statusErrorLog (code : Nat)
  | debugEventLog (ev : List (String × String))
  | processThingCall (thing : Json)
  | warnNonJson (data : String)
  | streamErrorLog (err : String)
  | reconnectLog
  | sleep (secs : Nat)

/-- What one connection attempt looks like from the worker: either the
request itself raises, or a response arrives with a status code and, when
consumed, the stream delivers some raw lines and then ends or raises. -/
inductive StreamBody where
  | ended (rawLines : List String)
  | interrupted (rawLines : List String) (err : String)

/-- One environment-determined connection attempt. -/
inductive ConnAttempt where
  | connectError (err : String)
  | response (status : Nat) (body : StreamBody)

/-- Lines 89-98: handling of one decoded event. `loads` abstracts
`json.loads` (`none` models `json.JSONDecodeError`). -/
def eventStep (loads : String → Option Json) (debug : Bool)
    (ev : List (String × String)) (st : BridgeState) : List SupAction × BridgeState :=
  let pre := if debug then [SupAction.debugEventLog ev] else []
  match ev.lookup "data" with
  | none => (pre, st)
  | some data =>
    match loads data with
    | some thing => (pre ++ [SupAction.processThingCall thing], process_thing debug thing st)
    | none => (pre ++ (if data ≠ "" then [SupAction.warnNonJson data] else []), st)

/-- Consume the decoded events of one connection in order. -/
def streamEvents (loads : String → Option Json) (debug : Bool) :
    List (List (String × String)) → BridgeState → List SupAction × BridgeState
  | [], st => ([], st)
  | ev :: rest, st =>
    let r1 := eventStep loads debug ev st
    let r2 := streamEvents loads debug rest r1.2
    (r1.1 ++ r2.1, r2.2)

/-- One iteration of the `while rclpy.ok()` loop body (lines 79-103): on a
non-200 status, log the error, sleep 5 and `continue`; otherwise consume the
stream via `sse_parse`; a request or mid-stream exception is caught and
logged; every path other than the early `continue` logs the reconnect
notice and sleeps 5 before the next iteration. -/
def iterRun (loads : String → Option Json) (debug : Bool) (a : ConnAttempt)
    (st : BridgeState) : List SupAction × BridgeState :=
  match a with
  | .connectError e =>
    ([SupAction.connectLog, SupAction.streamErrorLog e, SupAction.reconnectLog, SupAction.sleep 5], st)
  | .response status body =>
    if status ≠ 200 then
      ([SupAction.connectLog, SupAction.statusErrorLog status, SupAction.sleep 5], st)
    else
      match body with
      | .ended lines =>
        let r := streamEvents loads debug (sse_parse lines) st
        ([SupAction.connectLog, SupAction.connectedLog] ++ r.1 ++
          [SupAction.reconnectLog, SupAction.sleep 5], r.2)
      | .interrupted lines e =>
        let r := streamEvents loads debug (sse_parse lines) st
        ([SupAction.connectLog, SupAction.connectedLog] ++ r.1 ++
          [SupAction.streamErrorLog e, SupAction.reconnectLog, SupAction.sleep 5], r.2)

/-- Model of the `subscribe_to_changes` loop, observed for `fuel`
iterations starting at iteration `i`: while the external running signal
`ok` holds, run one attempt supplied by the environment and recurse. The
worker itself never exits the loop; only `ok i = false` stops it. -/
def supervise (loads : String → Option Json) (debug : Bool) (ok : Nat → Bool)
    (atts : Nat → ConnAttempt) : Nat → Nat → BridgeState → List SupAction × BridgeState
  | 0, _, st => ([], st)
  | fuel + 1, i, st =>
    if ok i then
      let r1 := iterRun loads debug (atts i) st
      let r2 := supervise loads debug ok atts fuel (i + 1) r1.2
      (r1.1 ++ r2.1, r2.2)
    else ([], st)

/-- Count of `sleep 5` actions in a trace. -/
def countSleep5 (as : List SupAction) : Nat :=
  (as.filter (fun a => match a with | .sleep n => n == 5 | _ => false)).length

/-- Count of connection attempts in a trace. -/
def countConnect (as : List SupAction) : Nat :=
  (as.filter (fun a => match a with | .connectLog => true | _ => false)).length

/-! ## Lemmas about the Topic Sanitizer -/

/-- Mapping a function that fixes every member is the identity. -/
theorem mapIdOn {α : Type} (f : α → α) :
    ∀ (l : List α), (∀ c ∈ l, f c = c) → l.map f = l := by
  intro l
  induction l with
  | nil => intro _; rfl
  | cons a t ih =>
    intro h
    have ha := h a (List.mem_cons_self a t)
    have ht := ih (fun c hc => h c (List.mem_cons_of_mem a hc))
    simp [List.map_cons, ha, ht]

/-- The prepend-`/` step always produces a list starting with `/`. -/
theorem ifSlash_shape (s2 : List Char) :
    ∃ t, (if s2.head? = some '/' then s2 else '/' :: s2) = '/' :: t := by
  match s2 with
  | [] => exact ⟨[], by simp⟩
  | c :: r =>
    by_cases h : c = '/'
    · subst h
      exact ⟨r, by simp [List.head?]⟩
    · refine ⟨c :: r, ?_⟩
      simp [List.head?, h]

/-- Characters surviving the final substitution are all allowed. -/
theorem mem_map_sub_allowed (m : List Char) (c : Char)
    (hc : c ∈ m.map (fun c => if allowedChar c then c else '_')) :
    allowedChar c = true := by
  rcases List.mem_map.1 hc with ⟨a, _, rfl⟩
  cases hA : allowedChar a
  · simp only [hA, Bool.false_eq_true, if_false]
    decide
  · simp [hA]

/-- Every sanitized name starts with `/` and all its characters are in the
allowed class. -/
theorem sanitizeL_shape (l : List Char) :
    ∃ rest, sanitizeL l = '/' :: rest ∧ ∀ c ∈ sanitizeL l, allowedChar c = true := by
  obtain ⟨t, ht⟩ := ifSlash_shape (replaceChar '.' '_' (replaceChar ':' '_' l))
  have hmap : sanitizeL l =
      ((if (replaceChar '.' '_' (replaceChar ':' '_' l)).head? = some '/' then
          replaceChar '.' '_' (replaceChar ':' '_' l)
        else '/' :: replaceChar '.' '_' (replaceChar ':' '_' l)).map
        (fun c => if allowedChar c then c else '_')) := rfl
  rw [ht] at hmap
  refine ⟨t.map (fun c => if allowedChar c then c else '_'), ?_, ?_⟩
  · rw [hmap]
    have h1 : allowedChar '/' = true := by decide
    simp [List.map_cons, h1]
  · intro c hc
    rw [hmap] at hc
    exact mem_map_sub_allowed _ c hc

/-- Allowed characters are untouched by the colon/dot replacement. -/
theorem replace_fixes_allowed (old : Char) (hold : allowedChar old = false)
    (m : List Char) (hm : ∀ c ∈ m, allowedChar c = true) :
    replaceChar old '_' m = m := by
  unfold replaceChar
  apply mapIdOn
  intro c hc
  have hcA := hm c hc
  have : c ≠ old := by
    intro h
    rw [h, hold] at hcA
    exact Bool.false_ne_true hcA
  simp [this]

/-- The regex of the claim, `^/[0-9a-zA-Z_/~\x7b\x7d]*$`: a leading slash
followed by characters of the allowed class only. -/
def matchesTopicPattern (s : String) : Bool :=
  match s.data with
  | [] => false
  | c :: rest => c = '/' && rest.all allowedChar

/-- C8: every output of the Topic Sanitizer begins with `/` and contains
only alphanumerics, `_`, `~`, braces and `/`; in particular sanitizing
`org.acme:thing-1` gives `/org_acme_thing_1`. -/
theorem sanitize_output_pattern :
    (∀ s : String, matchesTopicPattern (sanitize_topic_name s) = true) ∧
      sanitize_topic_name "org.acme:thing-1" = "/org_acme_thing_1" := by
  constructor
  · intro s
    obtain ⟨rest, hshape, hall⟩ := sanitizeL_shape s.data
    have hdata : (sanitize_topic_name s).data = '/' :: rest := by
      rw [sanitize_topic_name]
      exact hshape
    unfold matchesTopicPattern
    rw [hdata]
    simp only [Bool.and_eq_true, decide_eq_true_eq, List.all_eq_true]
    constructor
    · trivial
    · intro c hc
      exact hall c (by rw [hshape]; exact List.mem_cons_of_mem _ hc)
  · decide

/-- C9: the Topic Sanitizer is idempotent. -/
theorem sanitize_idempotent (s : String) :
    sanitize_topic_name (sanitize_topic_name s) = sanitize_topic_name s := by
  obtain ⟨rest, hshape, hall⟩ := sanitizeL_shape s.data
  have hdata : (sanitize_topic_name s).data = sanitizeL s.data := rfl
  suffices h : sanitizeL (sanitizeL s.data) = sanitizeL s.data by
    show String.mk (sanitizeL (sanitize_topic_name s).data) = sanitize_topic_name s
    rw [hdata, h]
    exact rfl
  have h1 : replaceChar ':' '_' (sanitizeL s.data) = sanitizeL s.data :=
    replace_fixes_allowed ':' (by decide) _ hall
  have h2 : replaceChar '.' '_' (sanitizeL s.data) = sanitizeL s.data :=
    replace_fixes_allowed '.' (by decide) _ hall
  have h3 : (sanitizeL s.data).head? = some '/' := by
    rw [hshape]
    rfl
  have h4 : (sanitizeL s.data).map (fun c => if allowedChar c then c else '_') =
      sanitizeL s.data := by
    apply mapIdOn
    intro c hc
    simp [hall c hc]
  show ((if (replaceChar '.' '_' (replaceChar ':' '_' (sanitizeL s.data))).head? = some '/' then
          replaceChar '.' '_' (replaceChar ':' '_' (sanitizeL s.data))
        else '/' :: replaceChar '.' '_' (replaceChar ':' '_' (sanitizeL s.data))).map
        (fun c => if allowedChar c then c else '_')) = sanitizeL s.data
  rw [h1, h2, h3]
  simp only [if_pos rfl]
  exact h4

/-! ## Lemmas about the Stream Decoder -/

/-- The fold step of `buildEvent`. -/
def buildStep (ev : List (String × String)) (line : String) : List (String × String) :=
  match splitAtFirst ':' line.data with
  | some (k, v) => dictAssign ev (pyStrip (String.mk k)) (pyStrip (String.mk v))
  | none => ev

/-- `buildEvent` is the fold of `buildStep` from the empty dict. -/
theorem buildEvent_eq_foldl (lines : List String) :
    buildEvent lines = lines.foldl buildStep [] := rfl

/-- Dict assignment never empties a dict. -/
theorem dictAssign_ne_nil (d : List (String × String)) (k v : String) :
    dictAssign d k v ≠ [] := by
  unfold dictAssign
  by_cases h : d.any (fun p => p.1 == k) = true
  · rw [if_pos h]
    intro hmap
    rw [List.map_eq_nil_iff] at hmap
    rw [hmap] at h
    simp [List.any_nil] at h
  · rw [if_neg h]
    intro happ
    rcases List.append_eq_nil.1 happ with ⟨_, h2⟩
    exact List.cons_ne_nil _ _ h2

/-- The event dict built from a line block is empty exactly when no line of
the block contains a colon. -/
theorem foldl_buildStep_eq_nil_iff (lines : List String) :
    ∀ acc, lines.foldl buildStep acc = [] ↔
      (acc = [] ∧ ∀ l ∈ lines, splitAtFirst ':' l.data = none) := by
  induction lines with
  | nil =>
    intro acc
    simp [List.foldl_nil]
  | cons l rest ih =>
    intro acc
    rw [List.foldl_cons, ih (buildStep acc l)]
    cases hs : splitAtFirst ':' l.data with
    | none =>
      constructor
      · rintro ⟨h1, h2⟩
        refine ⟨?_, ?_⟩
        · simpa [buildStep, hs] using h1
        · intro m hm
          rcases List.mem_cons.1 hm with rfl | hm2
          · exact hs
          · exact h2 m hm2
      · rintro ⟨h1, h2⟩
        refine ⟨?_, fun m hm => h2 m (List.mem_cons_of_mem _ hm)⟩
        simpa [buildStep, hs] using h1
    | some kv =>
      constructor
      · rintro ⟨h1, _⟩
        exfalso
        have : buildStep acc l ≠ [] := by
          simp only [buildStep, hs]
          exact dictAssign_ne_nil _ _ _
        exact this h1
      · rintro ⟨_, h2⟩
        have := h2 l (List.mem_cons_self _ _)
        rw [hs] at this
        exact absurd this (Option.some_ne_none _)

/-- Every entry of `dictAssign d k v` is the new pair or an entry of `d`. -/
theorem dictAssign_mem (d : List (String × String)) (k v : String)
    (kv : String × String) (h : kv ∈ dictAssign d k v) :
    kv = (k, v) ∨ kv ∈ d := by
  unfold dictAssign at h
  by_cases hA : d.any (fun p => p.1 == k) = true
  · rw [if_pos hA] at h
    rcases List.mem_map.1 h with ⟨p, hp, hkv⟩
    by_cases hpk : p.1 == k
    · left
      rw [← hkv]
      simp [hpk]
    · right
      rw [← hkv]
      simpa [hpk] using hp
  · rw [if_neg hA] at h
    rcases List.mem_append.1 h with h1 | h2
    · right
      exact h1
    · left
      simpa using h2
/-- Every entry of the built event dict is the trimmed split of a buffered
line at its first colon. -/
theorem foldl_buildStep_mem (lines : List String) :
    ∀ acc kv, kv ∈ lines.foldl buildStep acc →
      kv ∈ acc ∨ ∃ l ∈ lines, ∃ pre post, splitAtFirst ':' l.data = some (pre, post) ∧
        kv = (pyStrip (String.mk pre), pyStrip (String.mk post)) := by
  induction lines with
  | nil =>
    intro acc kv h
    exact Or.inl h
  | cons l rest ih =>
    intro acc kv h
    rw [List.foldl_cons] at h
    rcases ih (buildStep acc l) kv h with h1 | h2
    · cases hs : splitAtFirst ':' l.data with
      | none =>
        rw [buildStep, hs] at h1
        exact Or.inl h1
      | some pq =>
        rw [buildStep, hs] at h1
        rcases dictAssign_mem _ _ _ _ h1 with heq | hin
        · right
          exact ⟨l, List.mem_cons_self _ _, pq.1, pq.2, by rw [hs], heq⟩
        · exact Or.inl hin
    · right
      rcases h2 with ⟨m, hm, pre, post, hsp, hkv⟩
      exact ⟨m, List.mem_cons_of_mem _ hm, pre, post, hsp, hkv⟩

/-- A stream remainder in which no line strips to blank never yields an
event from any buffer state: yields happen only at blank separators. -/
theorem sse_parse_go_no_blank (lines : List String) :
    ∀ buffer, (∀ l ∈ lines, pyStrip l ≠ "") → sse_parse_go buffer lines = [] := by
  induction lines with
  | nil =>
    intro buffer _
    rfl
  | cons l rest ih =>
    intro buffer h
    have hl : pyStrip l ≠ "" := h l (List.mem_cons_self _ _)
    show sse_parse_go buffer (l :: rest) = []
    rw [sse_parse_go]
    simp only [if_pos hl]
    exact ih _ (fun m hm => h m (List.mem_cons_of_mem _ hm))

/-- Unfolding of the decoder loop at a blank line with a non-empty buffer:
the block event is built and yielded exactly when non-empty, and the buffer
resets for the rest of the stream. -/
theorem sse_parse_go_blank (buffer : String) (rest : List String) (hb : buffer ≠ "") :
    sse_parse_go buffer ("" :: rest) =
      (if (buildEvent (splitOnChar '\n' buffer)).isEmpty then []
       else [buildEvent (splitOnChar '\n' buffer)]) ++ sse_parse_go "" rest := by
  rw [sse_parse_go]
  have htrim : pyStrip "" = "" := rfl
  simp only [htrim, ne_eq, not_true_eq_false, if_false, if_pos hb]

/-! ## Lemmas about the Publisher Registry -/

/-- Appending a fresh binding makes it visible to lookup. -/
theorem lookup_append_self (l : List (String × ChannelHandle)) (t : String) (h : ChannelHandle)
    (hl : l.lookup t = none) : (l ++ [(t, h)]).lookup t = some h := by
  induction l with
  | nil => simp [List.lookup]
  | cons p rest ih =>
    rw [List.cons_append, List.lookup]
    rw [List.lookup] at hl
    cases hbeq : (t == p.1) with
    | true =>
      rw [hbeq] at hl
      simp at hl
    | false =>
      rw [hbeq] at hl
      simpa using ih hl

/-- Appending an unrelated binding does not affect lookup. -/
theorem lookup_append_other (l : List (String × ChannelHandle)) (t u : String)
    (h : ChannelHandle) (hne : (t == u) = false) :
    (l ++ [(u, h)]).lookup t = l.lookup t := by
  induction l with
  | nil => simp [List.lookup, hne]
  | cons p rest ih =>
    rw [List.cons_append, List.lookup, List.lookup]
    cases hbeq : (t == p.1) with
    | true => rfl
    | false => simpa using ih

/-- String concatenation is left-cancellative. -/
theorem string_append_right_inj (a b c : String) : a ++ b = a ++ c ↔ b = c := by
  constructor
  · intro h
    have hd : a.data ++ b.data = a.data ++ c.data := by
      have := congrArg String.data h
      simpa [String.data_append] using this
    have hbc := List.append_cancel_left hd
    cases b
    cases c
    exact congrArg String.mk hbc
  · intro h
    rw [h]

/-! ## Claim theorems: Feature Router -/

/-- C6: on the payload with `thingId` `org.x:dev1` and a `temperature`
feature whose `value` is the string `"21.5"`, exactly one publish occurs,
to topic `/org_x_dev1/sensor/temperature`, and the published value is the
number 21.5 (= 43/2) coerced from the string. -/
theorem route_temperature_example :
    (process_thing false
      (Json.obj [("thingId", Json.str "org.x:dev1"),
        ("features", Json.obj [("temperature", Json.obj [("properties",
          Json.obj [("value", Json.str "21.5")])])])]) initState).published =
      [({ id := 0, msgType := .temperature, topic := "/org_x_dev1/sensor/temperature" },
        RosMsg.temperature (mkRat 43 2))] := by
  decide

/-- C7 counterexample: a payload whose `alerts` feature has two entries
with the same `type` produces two publishes whose composite message
strings are equal, not distinct, refuting the claim as stated. -/
theorem alerts_same_type_equal_messages :
    ((process_thing false
      (Json.obj [("thingId", Json.str "t1"),
        ("features", Json.obj [("alerts", Json.obj [("properties",
          Json.obj [("m1", Json.obj [("type", Json.str "fire")]),
                    ("m2", Json.obj [("type", Json.str "fire")])])])])])
      initState).published.map Prod.snd =
      [RosMsg.alert "t1:fire" 0, RosMsg.alert "t1:fire" 0])
    ∧ (RosMsg.alert "t1:fire" 0 : RosMsg) = RosMsg.alert "t1:fire" 0 := by
  constructor
  · decide
  · rfl

/-- C7 (amended): a payload whose `alerts` feature has two well-formed
entries (objects with string `type` and integer `severity`) produces
exactly two publishes, both through the publisher for the sanitized
`{thingId}/alerts` topic, with composite messages `{thingId}:{type}`;
the two message strings are distinct exactly when the `type` values
differ. -/
theorem alerts_two_entry_routing (tid k1 k2 ty1 ty2 : String) (s1 s2 : Int) :
    ((process_thing false
      (Json.obj [("thingId", Json.str tid),
        ("features", Json.obj [("alerts", Json.obj [("properties",
          Json.obj [(k1, Json.obj [("type", Json.str ty1), ("severity", Json.int s1)]),
                    (k2, Json.obj [("type", Json.str ty2), ("severity", Json.int s2)])])])])])
      initState).published =
      [({ id := 0, msgType := .alert, topic := sanitize_topic_name (tid ++ "/alerts") },
        RosMsg.alert (tid ++ ":" ++ ty1) s1),
       ({ id := 0, msgType := .alert, topic := sanitize_topic_name (tid ++ "/alerts") },
        RosMsg.alert (tid ++ ":" ++ ty2) s2)])
    ∧ (tid ++ ":" ++ ty1 ≠ tid ++ ":" ++ ty2 ↔ ty1 ≠ ty2) := by
  constructor
  · simp [process_thing, process_thing_body, withFeature, routeMetadata, routeAlerts, alertsLoop,
      tryE, pySeq, pyContains, pyIndex, pyGet, expectObj, pyInt, pyStr,
      get_or_create_publisher, publishMsg, addLog, initState, List.lookup]
  · exact not_congr (string_append_right_inj (tid ++ ":") ty1 ty2)

/-- C10: the `water` feature coerces `valve_open` with Python truthiness
rather than parsing: the published `valve_status` is `pyBool` of the raw
value, any non-empty string (including `"false"`) gives `true`, the
number 0 and the empty string give `false` — while the numeric fields of
the same feature are parsed from string representations (`"21.5"` becomes
the number 43/2). -/
theorem water_valve_truthiness :
    (∀ (tid : String) (v : Json),
      (process_thing false
        (Json.obj [("thingId", Json.str tid),
          ("features", Json.obj [("water", Json.obj [("properties",
            Json.obj [("valve_open", v)])])])]) initState).published =
        [({ id := 0, msgType := .waterManagement,
            topic := sanitize_topic_name (tid ++ "/sensor/water") },
          RosMsg.waterManagement (mkRat 0 1) (mkRat 0 1) (mkRat 0 1) (pyBool v))])
    ∧ (∀ s : String, pyBool (Json.str s) = true ↔ s ≠ "")
    ∧ pyBool (Json.str "false") = true
    ∧ pyBool (Json.int 0) = false
    ∧ pyBool (Json.str "") = false
    ∧ (process_thing false
        (Json.obj [("thingId", Json.str "t1"),
          ("features", Json.obj [("water", Json.obj [("properties",
            Json.obj [("level", Json.str "21.5")])])])]) initState).published =
        [({ id := 0, msgType := .waterManagement, topic := "/t1/sensor/water" },
          RosMsg.waterManagement (mkRat 43 2) (mkRat 0 1) (mkRat 0 1) false)] := by
  refine ⟨fun tid v => rfl, fun s => ?_, by decide, by decide, by decide, by decide⟩
  show (!s.data.isEmpty) = true ↔ s ≠ ""
  rw [Bool.not_eq_true']
  constructor
  · intro h hs
    rw [hs] at h
    exact absurd h (by decide)
  · intro h
    cases s with
    | mk l =>
      cases l with
      | nil => exact absurd rfl h
      | cons c t => rfl

/-! ## Claim theorems: Stream Decoder -/

/-- C3 counterexample: a blank line arriving while the buffer is
non-empty does NOT always yield an event: with the colon-free buffered
line `x` the built dict is empty and `sse_parse` yields nothing (the
source guards the yield with `if event:`). -/
theorem sse_blank_colonless_no_event :
    sse_parse ["x", ""] = [] ∧ ("x\n" : String) ≠ "" ∧ sse_parse_go "x\n" [""] = [] := by
  refine ⟨by decide, by decide, by decide⟩

/-- C3 (amended): whenever a blank line arrives while the buffer is
non-empty, the block event is built from the buffered lines (each line
with a `:` split at its first `:`, key and value stripped; lines without
`:` silently dropped) and the buffer resets; the event is yielded exactly
when at least one buffered line contains a `:` (an all-colon-free block
yields nothing). -/
theorem sse_blank_line_event (buffer : String) (rest : List String) (hb : buffer ≠ "") :
    (sse_parse_go buffer ("" :: rest) =
      (if (buildEvent (splitOnChar '\n' buffer)).isEmpty then []
       else [buildEvent (splitOnChar '\n' buffer)]) ++ sse_parse_go "" rest)
    ∧ ((buildEvent (splitOnChar '\n' buffer)).isEmpty = true ↔
        ∀ l ∈ splitOnChar '\n' buffer, splitAtFirst ':' l.data = none)
    ∧ ∀ kv ∈ buildEvent (splitOnChar '\n' buffer),
        ∃ l ∈ splitOnChar '\n' buffer, ∃ pre post,
          splitAtFirst ':' l.data = some (pre, post) ∧
          kv = (pyStrip (String.mk pre), pyStrip (String.mk post)) := by
  refine ⟨sse_parse_go_blank buffer rest hb, ?_, ?_⟩
  · rw [List.isEmpty_iff, buildEvent_eq_foldl, foldl_buildStep_eq_nil_iff]
    simp
  · intro kv hkv
    rw [buildEvent_eq_foldl] at hkv
    rcases foldl_buildStep_mem _ _ kv hkv with h1 | h2
    · exact absurd h1 (List.not_mem_nil kv)
    · exact h2

/-- C4: the six-line example stream yields exactly the two events in
order, and a stream remainder none of whose lines strips to blank (in
particular any stream ending mid-buffer without a terminating blank line)
yields nothing from any buffer state: the buffered content is discarded
rather than emitted as a partial event. -/
theorem sse_parse_example_no_partial :
    (sse_parse ["id: 1", "data: \x7b\"a\":1\x7d", "", "id: 2", "data: \x7b\x7d", ""] =
      [[("id", "1"), ("data", "\x7b\"a\":1\x7d")], [("id", "2"), ("data", "\x7b\x7d")]])
    ∧ ∀ (buffer : String) (lines : List String),
        (∀ l ∈ lines, pyStrip l ≠ "") → sse_parse_go buffer lines = [] := by
  refine ⟨by decide, ?_⟩
  intro buffer lines h
  exact sse_parse_go_no_blank lines buffer h

/-- Number of `Created new publisher` log events for topic `t`. -/
def creationCount (log : List LogEvent) (t : String) : Nat :=
  (log.filter (fun ev => match ev with | .createdPublisher u => u == t | _ => false)).length

/-- States reachable from node construction by the operations that touch
the node state: registry lookups/creations, publishes, and non-creation
log events (error, warning and debug logs). -/
inductive Reachable : BridgeState → Prop where
  | init : Reachable initState
  | create (mt : MsgType) (topic : String) (st : BridgeState) :
      Reachable st → Reachable (get_or_create_publisher mt topic st).2
  | publish (h : ChannelHandle) (m : RosMsg) (st : BridgeState) :
      Reachable st → Reachable (publishMsg h m st)
  | logOther (ev : LogEvent) (st : BridgeState) :
      (∀ t, ev ≠ .createdPublisher t) → Reachable st → Reachable (addLog ev st)

/-- The registry invariant: topic keys are unique, and each stored topic
has been announced by exactly one creation log event (absent topics by
none). -/
def RegInv (st : BridgeState) : Prop :=
  (st.publishers.map Prod.fst).Nodup ∧
  ∀ t, creationCount st.log t = if (st.publishers.lookup t).isSome then 1 else 0

/-- Failed lookup means the key is not among the stored topics. -/
theorem lookup_none_iff (l : List (String × ChannelHandle)) (t : String) :
    l.lookup t = none ↔ t ∉ l.map Prod.fst := by
  induction l with
  | nil => simp [List.lookup]
  | cons p rest ih =>
    rw [List.lookup]
    cases hbeq : (t == p.1) with
    | true =>
      have ht : t = p.1 := by simpa using hbeq
      simp [ht]
    | false =>
      have hne : t ≠ p.1 := by simpa using hbeq
      simp [ih, hne]

/-- Creation counting distributes over an appended log event. -/
theorem creationCount_append (log : List LogEvent) (ev : LogEvent) (t : String) :
    creationCount (log ++ [ev]) t =
      creationCount log t +
        (match ev with | .createdPublisher u => if (u == t) = true then 1 else 0 | _ => 0) := by
  unfold creationCount
  rw [List.filter_append, List.length_append]
  congr 1
  cases ev with
  | createdPublisher u =>
    by_cases h : (u == t) = true
    · simp [List.filter, h]
    · simp [List.filter, h]
  | errorProcessing e => simp [List.filter]
  | debugProcessing th => simp [List.filter]
  | debugPayload th => simp [List.filter]

/-- The registry invariant holds in every reachable state. -/
theorem reachable_reginv (st : BridgeState) (h : Reachable st) : RegInv st := by
  induction h with
  | init =>
    constructor
    · simp [initState]
    · intro t
      simp [initState, creationCount, List.lookup]
  | create mt topic st0 _ ih =>
    obtain ⟨hnd, hcnt⟩ := ih
    show RegInv (get_or_create_publisher mt topic st0).2
    unfold get_or_create_publisher
    cases hlk : st0.publishers.lookup (sanitize_topic_name topic) with
    | some h0 =>
      simpa [hlk] using And.intro hnd hcnt
    | none =>
      simp only [hlk]
      constructor
      · rw [List.map_append]
        refine hnd.append (by simp) ?_
        intro a ha hb
        rcases List.mem_singleton.1 (by simpa using hb) with rfl
        exact ((lookup_none_iff _ _).1 hlk) ha
      · intro t
        rw [creationCount_append]
        by_cases ht : (sanitize_topic_name topic == t) = true
        · have hteq : sanitize_topic_name topic = t := by simpa using ht
          subst hteq
          rw [lookup_append_self _ _ _ hlk]
          have h0 := hcnt (sanitize_topic_name topic)
          rw [hlk] at h0
          simp at h0
          simp [h0, ht]
        · have hne : (t == sanitize_topic_name topic) = false := by
            have : sanitize_topic_name topic ≠ t := by simpa using ht
            simpa using fun hh => this hh.symm
          rw [lookup_append_other _ _ _ _ hne]
          simp [hcnt t, ht]
  | publish hch m st0 _ ih =>
    obtain ⟨hnd, hcnt⟩ := ih
    exact ⟨hnd, hcnt⟩
  | logOther ev st0 hne _ ih =>
    obtain ⟨hnd, hcnt⟩ := ih
    refine ⟨hnd, fun t => ?_⟩
    show creationCount (st0.log ++ [ev]) t = _
    rw [creationCount_append]
    cases ev with
    | createdPublisher u => exact absurd rfl (hne u)
    | errorProcessing e => simpa using hcnt t
    | debugProcessing th => simpa using hcnt t
    | debugPayload th => simpa using hcnt t

/-! ## Claim theorems: Publisher Registry -/

/-- C5: in every reachable state, calling `get_or_create_publisher` twice
with the same raw topic returns the identical handle both times and the
second call (with any message kind) leaves the state unchanged; the
stored topics are pairwise distinct (at most one channel per sanitized
topic); the creation log fires exactly once per stored sanitized topic
and never for others; and a call either leaves the map unchanged or
appends exactly the one new entry — entries are never removed. -/
theorem publisher_registry_invariants (st : BridgeState) (hst : Reachable st)
    (mt mt' : MsgType) (topic : String) :
    (get_or_create_publisher mt' topic (get_or_create_publisher mt topic st).2 =
      ((get_or_create_publisher mt topic st).1, (get_or_create_publisher mt topic st).2))
    ∧ (st.publishers.map Prod.fst).Nodup
    ∧ (∀ t, creationCount st.log t =
        if (st.publishers.lookup t).isSome then 1 else 0)
    ∧ ((get_or_create_publisher mt topic st).2.publishers = st.publishers ∨
        (get_or_create_publisher mt topic st).2.publishers =
          st.publishers ++ [(sanitize_topic_name topic, (get_or_create_publisher mt topic st).1)]) := by
  obtain ⟨hnd, hcnt⟩ := reachable_reginv st hst
  refine ⟨?_, hnd, hcnt, ?_⟩
  · unfold get_or_create_publisher
    cases hlk : st.publishers.lookup (sanitize_topic_name topic) with
    | some h0 => simp [hlk]
    | none =>
      have hself := lookup_append_self st.publishers (sanitize_topic_name topic)
        { id := st.nextId, msgType := mt, topic := sanitize_topic_name topic } hlk
      simp [hlk, hself]
  · unfold get_or_create_publisher
    cases hlk : st.publishers.lookup (sanitize_topic_name topic) with
    | some h0 => simp [hlk]
    | none => simp [hlk]

/-! ## Claim theorems: Feature Router error handling -/

/-- C2: whenever any coercion or message-construction step of the
`process_thing` body raises, the invocation's remaining work is abandoned
(the publishes and registry are exactly those of the state at the raise
point), the failure is appended to the log — together with the offending
payload when `debug` diagnostics are enabled — and `process_thing` still
returns an ordinary state: the exception never escapes, so the supervisor
loop and later events are unaffected. -/
theorem process_thing_catches_exceptions (debug : Bool) (thing : Json)
    (st st1 : BridgeState) (e : PyErr)
    (h : process_thing_body debug thing st = (st1, some e)) :
    process_thing debug thing st =
      (if debug then addLog (.debugPayload thing) (addLog (.errorProcessing e) st1)
       else addLog (.errorProcessing e) st1)
    ∧ (process_thing debug thing st).published = st1.published
    ∧ (process_thing debug thing st).publishers = st1.publishers
    ∧ (process_thing debug thing st).log =
        st1.log ++ [.errorProcessing e] ++
          (if debug then [LogEvent.debugPayload thing] else []) := by
  have hp : process_thing debug thing st =
      (if debug then addLog (.debugPayload thing) (addLog (.errorProcessing e) st1)
       else addLog (.errorProcessing e) st1) := by
    unfold process_thing
    rw [h]
  refine ⟨hp, ?_, ?_, ?_⟩ <;> rw [hp] <;> cases debug <;> simp [addLog]

/-! ## Lemmas about the Stream Supervisor -/

/-- `countSleep5` is additive. -/
theorem countSleep5_append (a b : List SupAction) :
    countSleep5 (a ++ b) = countSleep5 a + countSleep5 b := by
  simp [countSleep5, List.filter_append]

/-- `countConnect` is additive. -/
theorem countConnect_append (a b : List SupAction) :
    countConnect (a ++ b) = countConnect a + countConnect b := by
  simp [countConnect, List.filter_append]

/-- Handling one event neither sleeps nor opens a connection. -/
theorem eventStep_no_sleep_connect (loads : String → Option Json) (debug : Bool)
    (ev : List (String × String)) (st : BridgeState) :
    countSleep5 (eventStep loads debug ev st).1 = 0 ∧
      countConnect (eventStep loads debug ev st).1 = 0 := by
  cases hl : ev.lookup "data" with
  | none => cases debug <;> simp [eventStep, hl, countSleep5, countConnect]
  | some data =>
    cases hj : loads data with
    | some thing =>
      cases debug <;> simp [eventStep, hl, hj, countSleep5, countConnect, List.filter]
    | none =>
      by_cases hd : data = ""
      · subst hd
        cases debug <;> simp [eventStep, hl, hj, countSleep5, countConnect, List.filter]
      · cases debug <;> simp [eventStep, hl, hj, hd, countSleep5, countConnect, List.filter]

/-- Consuming a stream of events neither sleeps nor opens connections. -/
theorem streamEvents_no_sleep_connect (loads : String → Option Json) (debug : Bool) :
    ∀ (evs : List (List (String × String))) (st : BridgeState),
      countSleep5 (streamEvents loads debug evs st).1 = 0 ∧
        countConnect (streamEvents loads debug evs st).1 = 0 := by
  intro evs
  induction evs with
  | nil =>
    intro st
    exact ⟨rfl, rfl⟩
  | cons ev rest ih =>
    intro st
    unfold streamEvents
    obtain ⟨h1, h2⟩ := eventStep_no_sleep_connect loads debug ev st
    obtain ⟨h3, h4⟩ := ih (eventStep loads debug ev st).2
    constructor
    · rw [countSleep5_append, h1, h3]
    · rw [countConnect_append, h2, h4]

/-- The last element of a list extended by two elements. -/
theorem getLast_append_pair (l : List SupAction) (a b : SupAction) :
    (l ++ [a, b]).getLast? = some b := by
  rw [show l ++ [a, b] = (l ++ [a]) ++ [b] by simp]
  exact List.getLast?_concat _

/-- Every loop iteration sleeps the fixed 5-second delay exactly once,
as its final act, and opens exactly one connection attempt. -/
theorem iterRun_shape (loads : String → Option Json) (debug : Bool)
    (a : ConnAttempt) (st : BridgeState) :
    countSleep5 (iterRun loads debug a st).1 = 1 ∧
      (iterRun loads debug a st).1.getLast? = some (.sleep 5) ∧
      countConnect (iterRun loads debug a st).1 = 1 := by
  cases a with
  | connectError e =>
    refine ⟨?_, rfl, ?_⟩ <;> simp [iterRun, countSleep5, countConnect, List.filter]
  | response status body =>
    by_cases hs : status = 200
    · subst hs
      cases body with
      | ended lines =>
        obtain ⟨h1, h2⟩ := streamEvents_no_sleep_connect loads debug (sse_parse lines) st
        refine ⟨?_, ?_, ?_⟩
        · show countSleep5 ([SupAction.connectLog, SupAction.connectedLog] ++
            (streamEvents loads debug (sse_parse lines) st).1 ++
            [SupAction.reconnectLog, SupAction.sleep 5]) = 1
          rw [countSleep5_append, countSleep5_append, h1]
          rfl
        · show ([SupAction.connectLog, SupAction.connectedLog] ++
            (streamEvents loads debug (sse_parse lines) st).1 ++
            [SupAction.reconnectLog, SupAction.sleep 5]).getLast? = some (.sleep 5)
          rw [List.append_assoc]
          rw [show [SupAction.connectLog, SupAction.connectedLog] ++
            ((streamEvents loads debug (sse_parse lines) st).1 ++
              [SupAction.reconnectLog, SupAction.sleep 5]) =
            (SupAction.connectLog :: SupAction.connectedLog ::
              (streamEvents loads debug (sse_parse lines) st).1) ++
              [SupAction.reconnectLog, SupAction.sleep 5] by simp]
          exact getLast_append_pair _ _ _
        · show countConnect ([SupAction.connectLog, SupAction.connectedLog] ++
            (streamEvents loads debug (sse_parse lines) st).1 ++
            [SupAction.reconnectLog, SupAction.sleep 5]) = 1
          rw [countConnect_append, countConnect_append, h2]
          rfl
      | interrupted lines e =>
        obtain ⟨h1, h2⟩ := streamEvents_no_sleep_connect loads debug (sse_parse lines) st
        refine ⟨?_, ?_, ?_⟩
        · show countSleep5 ([SupAction.connectLog, SupAction.connectedLog] ++
            (streamEvents loads debug (sse_parse lines) st).1 ++
            [SupAction.streamErrorLog e, SupAction.reconnectLog, SupAction.sleep 5]) = 1
          rw [countSleep5_append, countSleep5_append, h1]
          rfl
        · show ([SupAction.connectLog, SupAction.connectedLog] ++
            (streamEvents loads debug (sse_parse lines) st).1 ++
            [SupAction.streamErrorLog e, SupAction.reconnectLog, SupAction.sleep 5]).getLast? =
            some (.sleep 5)
          rw [show [SupAction.connectLog, SupAction.connectedLog] ++
            (streamEvents loads debug (sse_parse lines) st).1 ++
            [SupAction.streamErrorLog e, SupAction.reconnectLog, SupAction.sleep 5] =
            (SupAction.connectLog :: SupAction.connectedLog ::
              (streamEvents loads debug (sse_parse lines) st).1 ++
              [SupAction.streamErrorLog e]) ++
              [SupAction.reconnectLog, SupAction.sleep 5] by simp]
          exact getLast_append_pair _ _ _
        · show countConnect ([SupAction.connectLog, SupAction.connectedLog] ++
            (streamEvents loads debug (sse_parse lines) st).1 ++
            [SupAction.streamErrorLog e, SupAction.reconnectLog, SupAction.sleep 5]) = 1
          rw [countConnect_append, countConnect_append, h2]
          rfl
    · have hs2 : status ≠ 200 := hs
      refine ⟨?_, ?_, ?_⟩ <;>
        simp [iterRun, hs2, countSleep5, countConnect, List.filter, List.getLast?]

/-- With the running signal always true, the supervisor performs exactly
one connection attempt per loop iteration, for as many iterations as
observed: retries never stop. -/
theorem supervise_connect_count (loads : String → Option Json) (debug : Bool)
    (ok : Nat → Bool) (atts : Nat → ConnAttempt) (hok : ∀ j, ok j = true) :
    ∀ (f i : Nat) (st : BridgeState),
      countConnect (supervise loads debug ok atts f i st).1 = f := by
  intro f
  induction f with
  | zero =>
    intro i st
    rfl
  | succ n ih =>
    intro i st
    rw [supervise]
    rw [hok i]
    simp only [if_true]
    rw [countConnect_append, (iterRun_shape loads debug (atts i) st).2.2, ih]
    exact Nat.add_comm 1 n

/-! ## Claim theorems: Stream Supervisor -/

/-- C1: while the external running signal holds, every loop iteration —
whatever its outcome: request exception, non-success HTTP status, stream
exception or normal stream end — ends with exactly one fixed `sleep 5`
as its final act and the loop unconditionally re-enters the next
iteration; the loop stops only when the signal goes false; and with the
signal always true the worker performs one connection attempt per
iteration without bound — no error terminates the worker or escapes it. -/
theorem supervisor_retries_unboundedly (loads : String → Option Json) (debug : Bool)
    (ok : Nat → Bool) (atts : Nat → ConnAttempt) (fuel i : Nat) (st : BridgeState) :
    (ok i = true →
      supervise loads debug ok atts (fuel + 1) i st =
        ((iterRun loads debug (atts i) st).1 ++
            (supervise loads debug ok atts fuel (i + 1) (iterRun loads debug (atts i) st).2).1,
          (supervise loads debug ok atts fuel (i + 1) (iterRun loads debug (atts i) st).2).2))
    ∧ (ok i = false → supervise loads debug ok atts (fuel + 1) i st = ([], st))
    ∧ (∀ (a : ConnAttempt) (st2 : BridgeState),
        countSleep5 (iterRun loads debug a st2).1 = 1 ∧
          (iterRun loads debug a st2).1.getLast? = some (.sleep 5))
    ∧ ((∀ j, ok j = true) →
        ∀ (f i2 : Nat) (st2 : BridgeState),
          countConnect (supervise loads debug ok atts f i2 st2).1 = f) := by
  refine ⟨?_, ?_, ?_, ?_⟩
  · intro h
    rw [supervise, h]
    simp
  · intro h
    rw [supervise, h]
    simp
  · intro a st2
    exact ⟨(iterRun_shape loads debug a st2).1, (iterRun_shape loads debug a st2).2.1⟩
  · intro hok f i2 st2
    exact supervise_connect_count loads debug ok atts hok f i2 st2

/-! ## Witnesses -/

/-- Witness for C1: at the all-true running signal and a rejected (500)
connection attempt, the loop unfolds into one iteration followed by the
next, and three observed iterations perform three connection attempts. -/
theorem supervisor_retries_unboundedly_witness :
    (supervise (fun _ => none) false (fun _ => true)
        (fun _ => ConnAttempt.response 500 (.ended [])) 1 0 initState =
      ((iterRun (fun _ => none) false (ConnAttempt.response 500 (.ended [])) initState).1 ++
          (supervise (fun _ => none) false (fun _ => true)
            (fun _ => ConnAttempt.response 500 (.ended [])) 0 1
            (iterRun (fun _ => none) false (ConnAttempt.response 500 (.ended [])) initState).2).1,
        (supervise (fun _ => none) false (fun _ => true)
          (fun _ => ConnAttempt.response 500 (.ended [])) 0 1
          (iterRun (fun _ => none) false (ConnAttempt.response 500 (.ended [])) initState).2).2))
    ∧ countConnect (supervise (fun _ => none) false (fun _ => true)
        (fun _ => ConnAttempt.response 500 (.ended [])) 3 0 initState).1 = 3 :=
  ⟨(supervisor_retries_unboundedly (fun _ => none) false (fun _ => true)
      (fun _ => ConnAttempt.response 500 (.ended [])) 0 0 initState).1 rfl,
   (supervisor_retries_unboundedly (fun _ => none) false (fun _ => true)
      (fun _ => ConnAttempt.response 500 (.ended [])) 0 0 initState).2.2.2
      (fun _ => rfl) 3 0 initState⟩

/-- Witness for C2: on a payload whose `temperature.value` is `null`,
`float(...)` raises; the invocation publishes nothing further, and the
error is logged together with the offending payload (debug enabled). -/
theorem process_thing_catches_exceptions_witness :
    process_thing true
        (Json.obj [("features", Json.obj [("temperature", Json.obj [("properties",
          Json.obj [("value", Json.null)])])])]) initState =
      (if true then
        addLog (.debugPayload (Json.obj [("features", Json.obj [("temperature",
          Json.obj [("properties", Json.obj [("value", Json.null)])])])]))
          (addLog (.errorProcessing (PyErr.typeError "float argument must not be None"))
            { publishers := [], nextId := 0,
              log := [LogEvent.debugProcessing (Json.obj [("features", Json.obj [("temperature",
                Json.obj [("properties", Json.obj [("value", Json.null)])])])])],
              published := [] })
       else
        addLog (.errorProcessing (PyErr.typeError "float argument must not be None"))
          { publishers := [], nextId := 0,
            log := [LogEvent.debugProcessing (Json.obj [("features", Json.obj [("temperature",
              Json.obj [("properties", Json.obj [("value", Json.null)])])])])],
            published := [] }) :=
  (process_thing_catches_exceptions true
    (Json.obj [("features", Json.obj [("temperature", Json.obj [("properties",
      Json.obj [("value", Json.null)])])])]) initState
    { publishers := [], nextId := 0,
      log := [LogEvent.debugProcessing (Json.obj [("features", Json.obj [("temperature",
        Json.obj [("properties", Json.obj [("value", Json.null)])])])])],
      published := [] }
    (PyErr.typeError "float argument must not be None") rfl).1

/-- Witness for C3 (amended): a buffered `id: 1` line followed by the
blank separator yields exactly the one-pair event and the buffer resets. -/
theorem sse_blank_line_event_witness :
    (("id: 1\n" : String) ≠ "")
    ∧ ((sse_parse_go "id: 1\n" ("" :: []) =
        (if (buildEvent (splitOnChar '\n' "id: 1\n")).isEmpty then []
         else [buildEvent (splitOnChar '\n' "id: 1\n")]) ++ sse_parse_go "" [])
      ∧ ((buildEvent (splitOnChar '\n' "id: 1\n")).isEmpty = true ↔
          ∀ l ∈ splitOnChar '\n' "id: 1\n", splitAtFirst ':' l.data = none)
      ∧ ∀ kv ∈ buildEvent (splitOnChar '\n' "id: 1\n"),
          ∃ l ∈ splitOnChar '\n' "id: 1\n", ∃ pre post,
            splitAtFirst ':' l.data = some (pre, post) ∧
            kv = (pyStrip (String.mk pre), pyStrip (String.mk post))) :=
  ⟨by decide, sse_blank_line_event "id: 1\n" [] (by decide)⟩

/-- Witness for C4: a remainder whose lines never strip to blank yields
nothing from the non-empty buffer state `x\n`. -/
theorem sse_parse_example_no_partial_witness :
    (∀ l ∈ ["y"], pyStrip l ≠ "") ∧ sse_parse_go "x\n" ["y"] = [] :=
  ⟨by decide, sse_parse_example_no_partial.2 "x\n" ["y"] (by decide)⟩

/-- Witness for C5: the invariants at the reachable initial state, with
two different message kinds for the same raw topic. -/
theorem publisher_registry_invariants_witness :
    (get_or_create_publisher .alert "org.x:dev1/alerts"
        (get_or_create_publisher .temperature "org.x:dev1/alerts" initState).2 =
      ((get_or_create_publisher .temperature "org.x:dev1/alerts" initState).1,
        (get_or_create_publisher .temperature "org.x:dev1/alerts" initState).2))
    ∧ (initState.publishers.map Prod.fst).Nodup
    ∧ (∀ t, creationCount initState.log t =
        if (initState.publishers.lookup t).isSome then 1 else 0)
    ∧ ((get_or_create_publisher .temperature "org.x:dev1/alerts" initState).2.publishers =
          initState.publishers ∨
        (get_or_create_publisher .temperature "org.x:dev1/alerts" initState).2.publishers =
          initState.publishers ++ [(sanitize_topic_name "org.x:dev1/alerts",
            (get_or_create_publisher .temperature "org.x:dev1/alerts" initState).1)]) :=
  publisher_registry_invariants initState Reachable.init .temperature .alert "org.x:dev1/alerts"
